import Mathlib

/-!
Shallow embedding of the order-composition core of the Mr. Daebak front-end:

* the order-flow store (`src/stores/useOrderFlowStore.ts`),
* the pricing functions of the checkout page and checkout handler
  (`calculateProductPrice`, `calculateTotalPrice`, `handleCheckout`),
* the advancement guard of the style step (`StyleStep.tsx`, `handleNext`),
* the UI-action handler of the conversational drawer
  (`components/AIChatDrawer.tsx`, `handleUiAction`).

Modelling conventions: JavaScript numbers are `Int` (prices and quantities are
integral in this code base and price deltas may be negative), nullable fields
are `Option`, the nondeterministic id generator `generateId` is an explicit
parameter, and remote calls are an explicit environment of response functions.
-/

namespace MrDaebak

/-- ServingStyleResponseDto (the fields the core reads). -/
structure ServingStyle where
  id : String
  styleName : String
  extraPrice : Int
  deriving DecidableEq, Repr

/-- ProductResponseDto (the fields the core reads). -/
structure Product where
  id : String
  totalPrice : Int
  deriving DecidableEq, Repr

/-- DinnerResponseDto (the fields the core reads). -/
structure Dinner where
  id : String
  dinnerName : String
  basePrice : Int
  deriving DecidableEq, Repr

/-- MenuItemResponseDto (the fields the pricing code reads). -/
structure MenuItem where
  id : String
  unitPrice : Int
  deriving DecidableEq, Repr

/-- MenuItemCustomization from useOrderFlowStore.ts. -/
structure MenuItemCustomization where
  menuItemId : String
  menuItemName : String
  defaultQuantity : Int
  currentQuantity : Int
  deriving DecidableEq, Repr

/-- AdditionalMenuItem (global add-on entry) from useOrderFlowStore.ts. -/
structure AdditionalMenuItem where
  menuItemId : String
  menuItemName : String
  quantity : Int
  deriving DecidableEq, Repr

/-- DinnerInstance from useOrderFlowStore.ts: `style` and `product` are typed
non-null in TS but are populated with `null as any` placeholders, hence
`Option` here. -/
structure DinnerInstance where
  id : String
  style : Option ServingStyle
  product : Option Product
  menuCustomizations : List MenuItemCustomization
  deriving DecidableEq, Repr

/-- SelectedDinnerItem from useOrderFlowStore.ts. -/
structure SelectedDinnerItem where
  id : String
  dinner : Dinner
  quantity : Int
  instances : List DinnerInstance
  deriving DecidableEq, Repr

/-- OrderStep from useOrderFlowStore.ts. -/
inductive OrderStep
  | intro
  | address
  | dinner
  | style
  | customize
  | checkout
  deriving DecidableEq, Repr

/-- The store state of useOrderFlowStore.ts. -/
structure OrderFlowState where
  currentStep : OrderStep
  selectedAddress : String
  selectedDinners : List SelectedDinnerItem
  globalAdditionalMenuItems : List AdditionalMenuItem
  globalMemo : String
  deriving DecidableEq, Repr

/-- STEP_ORDER from useOrderFlowStore.ts. -/
def STEP_ORDER : List OrderStep :=
  [.intro, .address, .dinner, .style, .customize, .checkout]

/-- Initial state of the store. -/
def initialState : OrderFlowState :=
  { currentStep := .intro
    selectedAddress := ""
    selectedDinners := []
    globalAdditionalMenuItems := []
    globalMemo := "" }

/-- Model of `nextStep` from useOrderFlowStore.ts. -/
def nextStep (s : OrderFlowState) : OrderFlowState :=
  let currentIndex := STEP_ORDER.indexOf s.currentStep
  if currentIndex < STEP_ORDER.length - 1 then
    { s with currentStep := STEP_ORDER.getD (currentIndex + 1) s.currentStep }
  else s

/-- In-place update of the element at one index, leaving the list unchanged
when the index is out of bounds (the semantics of `arr[i] = f(arr[i])` guarded
by `if (arr[i])` in the TS code, and of the unguarded write after lazy
growth). -/
def listModify {α : Type} (f : α → α) : Nat → List α → List α
  | _, [] => []
  | 0, a :: rest => f a :: rest
  | n + 1, a :: rest => a :: listModify f n rest

/-- An empty placeholder instance, as pushed by the lazy-grow loop of
`setInstanceStyle` (style and product `null`, no customizations). -/
def emptyInstance (id : String) : DinnerInstance :=
  { id := id, style := none, product := none, menuCustomizations := [] }

/-- The `while (instances.length <= instanceIndex) instances.push(...)` loop of
`setInstanceStyle`: append empty placeholders until the length reaches
`target`.  `gen k` is the id `generateId()` returns for the k-th pushed
placeholder. -/
def padInstances (gen : Nat → String) (l : List DinnerInstance) (target : Nat) :
    List DinnerInstance :=
  l ++ (List.range (target - l.length)).map (fun k => emptyInstance (gen k))

/-- Update step of addDinner for an already-present dinner: the first item whose
`dinner.id` matches gets its quantity incremented and its instances reset
(`findIndex` + positional update in the TS code). -/
def bumpFirstDinner (dinnerId : String) (quantity : Int) :
    List SelectedDinnerItem → List SelectedDinnerItem
  | [] => []
  | item :: rest =>
    if item.dinner.id == dinnerId then
      { item with quantity := item.quantity + quantity, instances := [] } :: rest
    else
      item :: bumpFirstDinner dinnerId quantity rest

/-- Model of `addDinner` from useOrderFlowStore.ts.  `newId` stands for the
`generateId()` call. -/
def addDinner (newId : String) (s : OrderFlowState) (dinner : Dinner)
    (quantity : Int) : OrderFlowState :=
  if s.selectedDinners.any (fun item => item.dinner.id == dinner.id) then
    { s with selectedDinners := bumpFirstDinner dinner.id quantity s.selectedDinners }
  else
    { s with selectedDinners := s.selectedDinners ++
        [{ id := newId, dinner := dinner, quantity := quantity, instances := [] }] }

/-- Model of `removeDinner` from useOrderFlowStore.ts. -/
def removeDinner (s : OrderFlowState) (dinnerItemId : String) : OrderFlowState :=
  { s with selectedDinners := s.selectedDinners.filter (fun item => item.id != dinnerItemId) }

/-- Model of `updateDinnerQuantity` from useOrderFlowStore.ts. -/
def updateDinnerQuantity (s : OrderFlowState) (dinnerItemId : String)
    (quantity : Int) : OrderFlowState :=
  if quantity ≤ 0 then
    removeDinner s dinnerItemId
  else
    { s with selectedDinners := s.selectedDinners.map (fun item =>
        if item.id == dinnerItemId then
          { item with quantity := quantity, instances := [] }
        else item) }

/-- Model of `setInstanceStyle` from useOrderFlowStore.ts: lazily grow the matching
instances of the matching item to `instanceIndex + 1`, then overwrite slot `instanceIndex`
with the new style, clearing the product and the customizations. -/
def setInstanceStyle (gen : Nat → String) (s : OrderFlowState)
    (dinnerItemId : String) (instanceIndex : Nat) (style : ServingStyle) :
    OrderFlowState :=
  { s with selectedDinners := s.selectedDinners.map (fun item =>
      if item.id == dinnerItemId then
        { item with instances :=
            (listModify
              (fun inst => { inst with
                style := some style, product := none, menuCustomizations := [] })
              instanceIndex
              (padInstances gen item.instances (instanceIndex + 1))) }
      else item) }

/-- Model of `setInstanceProduct` from useOrderFlowStore.ts: set the product on an
existing instance slot; the `if (instances[instanceIndex])` guard makes the
out-of-bounds case leave the list unchanged. -/
def setInstanceProduct (s : OrderFlowState) (dinnerItemId : String)
    (instanceIndex : Nat) (product : Product) : OrderFlowState :=
  { s with selectedDinners := s.selectedDinners.map (fun item =>
      if item.id == dinnerItemId then
        { item with instances :=
            (listModify (fun inst => { inst with product := some product })
              instanceIndex item.instances) }
      else item) }

/-- Model of `addGlobalAdditionalMenuItem` from useOrderFlowStore.ts: append a quantity-1
entry unless one with the same menu item id is already present. -/
def addGlobalAdditionalMenuItem (s : OrderFlowState) (menuItemId menuItemName : String) :
    OrderFlowState :=
  if s.globalAdditionalMenuItems.any (fun item => item.menuItemId == menuItemId) then
    s
  else
    { s with globalAdditionalMenuItems := s.globalAdditionalMenuItems ++
        [{ menuItemId := menuItemId, menuItemName := menuItemName, quantity := 1 }] }

/-- Model of `getTotalPrice` from useOrderFlowStore.ts: sums the backend `totalPrice` of
every materialized product; instances without a product and the global
additional menu items contribute nothing. -/
def getTotalPrice (s : OrderFlowState) : Int :=
  s.selectedDinners.foldl (fun total item =>
    item.instances.foldl (fun t inst =>
      match inst.product with
      | some p => t + p.totalPrice
      | none => t) total) 0

/-! ### Pricing (checkout page: `calculateProductPrice`, `calculateTotalPrice`)

Both TS functions inline the same accumulation loop over the
`menuCustomizations` of an instance (`find` the catalog entry, add `unitPrice * (current -
default)` when found); it is factored out here as `customizationTotal`. -/

/-- The customization accumulation loop shared by `calculateProductPrice` and
`calculateTotalPrice`: unknown menu item ids contribute nothing. -/
def customizationTotal (allMenuItems : List MenuItem)
    (customizations : List MenuItemCustomization) : Int :=
  customizations.foldl (fun acc c =>
    match allMenuItems.find? (fun m => m.id == c.menuItemId) with
    | some menuItem => acc + menuItem.unitPrice * (c.currentQuantity - c.defaultQuantity)
    | none => acc) 0

/-- Model of `calculateProductPrice` from the checkout page: `0` unless the instance at
`instanceIndex` has both a product and a style, else dinner base price + style
extra price + customization deltas. -/
def calculateProductPrice (allMenuItems : List MenuItem)
    (dinnerItem : SelectedDinnerItem) (instanceIndex : Nat) : Int :=
  match dinnerItem.instances.get? instanceIndex with
  | none => 0
  | some inst =>
    match inst.product, inst.style with
    | some _, some style =>
        dinnerItem.dinner.basePrice + style.extraPrice +
          customizationTotal allMenuItems inst.menuCustomizations
    | _, _ => 0

/-- Contribution of one instance inside the `forEach` body of `calculateTotalPrice`:
product and style present gives the inline base + extra + customization sum;
style alone falls back to `calculateProductPrice` (which is `0` there);
otherwise nothing. -/
def instanceTotalContribution (allMenuItems : List MenuItem)
    (item : SelectedDinnerItem) (p : Nat × DinnerInstance) : Int :=
  match p.2.product, p.2.style with
  | some _, some style =>
      item.dinner.basePrice + style.extraPrice +
        customizationTotal allMenuItems p.2.menuCustomizations
  | _, _ =>
      if p.2.style.isSome then calculateProductPrice allMenuItems item p.1 else 0

/-- Model of `calculateTotalPrice` from the checkout page: per-instance contributions
plus, for every global additional menu item found in the catalog,
`unitPrice * quantity`. -/
def calculateTotalPrice (allMenuItems : List MenuItem) (s : OrderFlowState) : Int :=
  let dinnersTotal := s.selectedDinners.foldl (fun acc item =>
    acc + item.instances.enum.foldl (fun acc2 p =>
      acc2 + instanceTotalContribution allMenuItems item p) 0) 0
  s.globalAdditionalMenuItems.foldl (fun acc additionalItem =>
    match allMenuItems.find? (fun m => m.id == additionalItem.menuItemId) with
    | some menuItem => acc + menuItem.unitPrice * additionalItem.quantity
    | none => acc) dinnersTotal

/-! ### Style step advancement guard (`StyleStep.tsx`, `handleNext`) -/

/-- The `allStylesSelected` condition of `StyleStep.handleNext`: every selected
dinner has exactly `quantity` instances and every instance has both a style
and a materialized product. -/
def allStylesSelected (s : OrderFlowState) : Bool :=
  s.selectedDinners.all (fun item =>
    ((item.instances.length : Int) == item.quantity) &&
      item.instances.all (fun inst => inst.style.isSome && inst.product.isSome))

/-- Model of `handleNext` of StyleStep.tsx: refuse to advance (alert and return) unless
`allStylesSelected` holds and an address is chosen; otherwise `nextStep()`. -/
def styleStepHandleNext (s : OrderFlowState) : OrderFlowState :=
  if !(allStylesSelected s) then s
  else if s.selectedAddress == "" then s
  else nextStep s

/-! ### Checkout handler (checkout page, `handleCheckout`)

The remote calls of `handleCheckout` are modelled by an explicit environment:
the registered payment methods and, per global additional menu item, the
response of `POST /products/createAdditionalMenuProduct` (the created product
id, or an error message). -/

/-- One `{ productId, quantity }` entry of the cart-creation request. -/
structure CartItemRequest where
  productId : String
  quantity : Int
  deriving DecidableEq, Repr

/-- The observable outcome of `handleCheckout` up to the cart-creation call:
each `blocked`/`aborted` constructor is one of the early `return` paths, and
`proceedToCart` means the remote cart-creation sequence begins. -/
inductive CheckoutOutcome
  | blockedMissingProducts
  | blockedNoPaymentMethod
  | abortedAdditionalFailure (failedItemName : String) (createdProductIds : List String)
  | blockedEmptyCart (createdProductIds : List String)
  | proceedToCart (items : List CartItemRequest) (createdProductIds : List String)
  deriving DecidableEq, Repr

/-- The remote responses `handleCheckout` depends on. -/
structure CheckoutEnv where
  paymentMethodsCount : Nat
  createAdditionalMenuProduct : AdditionalMenuItem → Except String String

/-- The `allProductsCreated` guard of `handleCheckout`: every existing instance
of every selected dinner has a product (nothing relates the number of
instances to the quantity of the dinner). -/
def allProductsCreated (s : OrderFlowState) : Bool :=
  s.selectedDinners.all (fun item => item.instances.all (fun inst => inst.product.isSome))

/-- The sequential `for ... of globalAdditionalMenuItems` loop of
`handleCheckout`: materialize each add-on in order; the first failure stops
the loop and reports the name of that item together with the product ids already
created before it. -/
def materializeAdditional (f : AdditionalMenuItem → Except String String) :
    List AdditionalMenuItem → Except (String × List String) (List String)
  | [] => Except.ok []
  | item :: rest =>
    match f item with
    | Except.error _ => Except.error (item.menuItemName, [])
    | Except.ok pid =>
      match materializeAdditional f rest with
      | Except.error (nm, created) => Except.error (nm, pid :: created)
      | Except.ok pids => Except.ok (pid :: pids)

/-- Model of `handleCheckout` of the checkout page, up to the cart-creation call.  The
store state is returned unchanged on every path modelled here: the handler
only calls `resetOrder()` after a successful checkout response, which lies
beyond the cart-creation call. -/
def handleCheckout (env : CheckoutEnv) (s : OrderFlowState) :
    CheckoutOutcome × OrderFlowState :=
  if !(allProductsCreated s) then (.blockedMissingProducts, s)
  else if env.paymentMethodsCount == 0 then (.blockedNoPaymentMethod, s)
  else
    let cartItems := (s.selectedDinners.map (fun item =>
      item.instances.filterMap (fun inst =>
        inst.product.map (fun p =>
          ({ productId := p.id, quantity := 1 } : CartItemRequest))))).flatten
    match materializeAdditional env.createAdditionalMenuProduct
        s.globalAdditionalMenuItems with
    | Except.error (nm, created) => (.abortedAdditionalFailure nm created, s)
    | Except.ok pids =>
      let allCartItems := cartItems ++
        pids.map (fun pid => ({ productId := pid, quantity := 1 } : CartItemRequest))
      if allCartItems.isEmpty then (.blockedEmptyCart pids, s)
      else (.proceedToCart allCartItems pids, s)

/-! ### Conversational drawer (`AIChatDrawer.tsx`, `handleUiAction`) -/

/-- The `UiAction` enum of types/api.ts. -/
inductive UiAction
  | uiNone
  | showConfirmModal
  | showCancelConfirm
  | updateOrderList
  | orderCompleted
  | requestAddress
  | requestPaymentMethod
  | proceedCheckout
  deriving DecidableEq, Repr

/-- VoiceOrderItemDto (the fields the drawer reads). -/
structure VoiceOrderItem where
  dinnerId : String
  dinnerName : String
  servingStyleId : Option String
  servingStyleName : Option String
  productId : Option String
  quantity : Int
  basePrice : Int
  unitPrice : Int
  totalPrice : Int
  deriving DecidableEq, Repr

/-- Local component state of the drawer touched by `handleUiAction`. -/
structure ChatLocalState where
  currentOrder : List VoiceOrderItem
  totalPrice : Int
  selectedAddress : Option String
  nextState : Option String
  showConfirmModal : Bool
  drawerOpen : Bool
  deriving DecidableEq, Repr

/-- The fields of VoiceChatResponseDto that `handleUiAction` reads. -/
structure VoiceChatResponse where
  totalPrice : Int
  orderNumber : Option String
  deriving DecidableEq, Repr

/-- Model of `handleUiAction` of AIChatDrawer.tsx.  The `SHOW_CANCEL_CONFIRM` case is an
explicit no-op in the source (its body is only the comment "implement if
needed"); `ORDER_COMPLETED` clears the local order state and closes the drawer
unconditionally (the alert and the delayed navigation are I/O only). -/
def handleUiAction (uiAction : UiAction) (_data : VoiceChatResponse)
    (st : ChatLocalState) : ChatLocalState :=
  match uiAction with
  | .showConfirmModal => { st with showConfirmModal := true }
  | .showCancelConfirm => st
  | .updateOrderList => st
  | .orderCompleted =>
      { st with currentOrder := [], totalPrice := 0, selectedAddress := none,
                nextState := none, drawerOpen := false }
  | _ => st

/-! ### List helper lemmas -/

theorem listModify_length {α : Type} (f : α → α) (n : Nat) (l : List α) :
    (listModify f n l).length = l.length := by
  induction l generalizing n with
  | nil => cases n <;> rfl
  | cons a rest ih =>
    cases n with
    | zero => rfl
    | succ m => simpa [listModify] using ih m

theorem listModify_get_self {α : Type} (f : α → α) (n : Nat) (l : List α) :
    (listModify f n l).get? n = (l.get? n).map f := by
  induction l generalizing n with
  | nil => simp [listModify]
  | cons a rest ih =>
    cases n with
    | zero => simp [listModify]
    | succ m => simpa [listModify] using ih m

theorem listModify_get_ne {α : Type} (f : α → α) (n m : Nat) (l : List α)
    (h : m ≠ n) : (listModify f n l).get? m = l.get? m := by
  induction l generalizing n m with
  | nil => simp [listModify]
  | cons a rest ih =>
    cases n with
    | zero =>
      cases m with
      | zero => exact absurd rfl h
      | succ k => simp [listModify]
    | succ n' =>
      cases m with
      | zero => simp [listModify]
      | succ k =>
        simpa [listModify] using ih n' k (fun hh => h (by simp [hh]))

theorem listModify_of_length_le {α : Type} (f : α → α) (n : Nat) (l : List α)
    (h : l.length ≤ n) : listModify f n l = l := by
  induction l generalizing n with
  | nil => cases n <;> rfl
  | cons a rest ih =>
    cases n with
    | zero => simp at h
    | succ m => simp [listModify, ih m (by simpa using h)]

theorem padInstances_length (gen : Nat → String) (l : List DinnerInstance)
    (target : Nat) : (padInstances gen l target).length = max l.length target := by
  simp [padInstances]
  omega

theorem padInstances_get_isSome (gen : Nat → String) (l : List DinnerInstance)
    (target n : Nat) (h : n < target) :
    ((padInstances gen l target).get? n).isSome = true := by
  have hlen : n < (padInstances gen l target).length := by
    rw [padInstances_length]
    omega
  rw [List.get?_eq_getElem?]
  simp [hlen]

theorem map_eq_self_of {α : Type} {l : List α} {f : α → α}
    (h : ∀ a ∈ l, f a = a) : l.map f = l := by
  induction l with
  | nil => rfl
  | cons a rest ih =>
    rw [List.map_cons, h a (by simp), ih (fun b hb => h b (by simp [hb]))]

theorem foldl_add_eq_sum {α : Type} (F : Int → α → Int) (g : α → Int)
    (hF : ∀ acc x, F acc x = acc + g x) (l : List α) (init : Int) :
    l.foldl F init = init + (l.map g).sum := by
  induction l generalizing init with
  | nil => simp
  | cons x xs ih =>
    rw [List.foldl_cons, hF, List.map_cons, List.sum_cons, ih]
    ring

theorem sum_map_congr {α : Type} {l : List α} {f g : α → Int}
    (h : ∀ a ∈ l, f a = g a) : (l.map f).sum = (l.map g).sum := by
  induction l with
  | nil => rfl
  | cons a rest ih =>
    rw [List.map_cons, List.map_cons, List.sum_cons, List.sum_cons,
      h a (by simp), ih (fun b hb => h b (by simp [hb]))]

/-! ### Store operation helper lemmas -/

theorem setInstanceStyle_get (gen : Nat → String) (s : OrderFlowState)
    (d : String) (i : Nat) (st : ServingStyle) (k : Nat)
    (item : SelectedDinnerItem) (hk : s.selectedDinners.get? k = some item)
    (hid : item.id = d) :
    (setInstanceStyle gen s d i st).selectedDinners.get? k = some
      { item with instances :=
          (listModify
            (fun inst => { inst with
              style := some st, product := none, menuCustomizations := [] })
            i (padInstances gen item.instances (i + 1))) } := by
  show (s.selectedDinners.map _).get? k = _
  rw [List.get?_eq_getElem?, List.getElem?_map, ← List.get?_eq_getElem?, hk,
    Option.map_some']
  subst hid
  simp

theorem setInstanceProduct_get (s : OrderFlowState) (d : String) (i : Nat)
    (p : Product) (k : Nat) (item : SelectedDinnerItem)
    (hk : s.selectedDinners.get? k = some item) (hid : item.id = d) :
    (setInstanceProduct s d i p).selectedDinners.get? k = some
      { item with instances :=
          (listModify (fun inst => { inst with product := some p })
            i item.instances) } := by
  show (s.selectedDinners.map _).get? k = _
  rw [List.get?_eq_getElem?, List.getElem?_map, ← List.get?_eq_getElem?, hk,
    Option.map_some']
  subst hid
  simp

theorem setInstanceStyle_instance_at (gen : Nat → String) (s : OrderFlowState)
    (d : String) (i : Nat) (st : ServingStyle) (k : Nat)
    (item : SelectedDinnerItem) (hk : s.selectedDinners.get? k = some item)
    (hid : item.id = d) :
    ∃ item' inst,
      (setInstanceStyle gen s d i st).selectedDinners.get? k = some item' ∧
      item'.id = item.id ∧ item'.dinner = item.dinner ∧
      item'.quantity = item.quantity ∧
      item'.instances.length = max item.instances.length (i + 1) ∧
      item'.instances.get? i = some inst ∧
      inst.style = some st ∧ inst.product = none ∧
      inst.menuCustomizations = [] := by
  have hupd := setInstanceStyle_get gen s d i st k item hk hid
  have hsome := padInstances_get_isSome gen item.instances (i + 1) i (by omega)
  obtain ⟨x, hx⟩ := Option.isSome_iff_exists.mp hsome
  refine ⟨_,
    { x with style := some st, product := none, menuCustomizations := [] },
    hupd, rfl, rfl, rfl, ?_, ?_, rfl, rfl, rfl⟩
  · rw [listModify_length, padInstances_length]
  · rw [listModify_get_self, hx, Option.map_some']

/-! ### Pricing lemmas and spec-side sums -/

/-- The catalog unit price that the `find` lookups of the checkout page resolve to;
`0` when the menu item id is unknown, matching how the code skips unknown
ids. -/
def lookupUnitPrice (allMenuItems : List MenuItem) (menuItemId : String) : Int :=
  ((allMenuItems.find? (fun m => m.id == menuItemId)).map MenuItem.unitPrice).getD 0

theorem customizationTotal_eq (allMenuItems : List MenuItem)
    (cs : List MenuItemCustomization) :
    customizationTotal allMenuItems cs =
      (cs.map (fun c => (c.currentQuantity - c.defaultQuantity) *
        lookupUnitPrice allMenuItems c.menuItemId)).sum := by
  have h := foldl_add_eq_sum
    (fun acc c =>
      match allMenuItems.find? (fun m => m.id == c.menuItemId) with
      | some menuItem =>
          acc + menuItem.unitPrice * (c.currentQuantity - c.defaultQuantity)
      | none => acc)
    (fun c => (c.currentQuantity - c.defaultQuantity) *
      lookupUnitPrice allMenuItems c.menuItemId)
    (fun acc c => by
      cases hfind : allMenuItems.find? (fun m => m.id == c.menuItemId) <;>
        (simp [lookupUnitPrice, hfind]; try ring))
    cs 0
  simpa [customizationTotal] using h

theorem instanceTotalContribution_eq (allMenuItems : List MenuItem)
    (item : SelectedDinnerItem) (p : Nat × DinnerInstance)
    (hmem : p ∈ item.instances.enum) :
    instanceTotalContribution allMenuItems item p =
      if p.2.product.isSome then calculateProductPrice allMenuItems item p.1
      else 0 := by
  obtain ⟨idx, inst⟩ := p
  have hg : item.instances.get? idx = some inst := by
    rw [List.get?_eq_getElem?]
    simpa using List.mem_enum_iff_getElem?.mp hmem
  have hg2 : item.instances[idx]? = some inst := by
    rw [← List.get?_eq_getElem?]
    exact hg
  cases hprod : inst.product <;> cases hstyle : inst.style <;>
    simp [instanceTotalContribution, calculateProductPrice, hg, hg2, hprod, hstyle]

/-- Spec-side formula ("Order total = Σ over all materialized instances of
per-instance price ..."): instances whose product is materialized contribute
their per-instance price, the rest contribute nothing. -/
def specMaterializedInstanceSum (allMenuItems : List MenuItem)
    (s : OrderFlowState) : Int :=
  (s.selectedDinners.map (fun item =>
    (item.instances.enum.map (fun p =>
      if p.2.product.isSome then calculateProductPrice allMenuItems item p.1
      else 0)).sum)).sum

/-- Spec-side formula ("... plus Σ over global additional menu items of
unitPrice × quantity"), the unit price resolved through the catalog lookup the
code performs. -/
def specGlobalAdditionalSum (allMenuItems : List MenuItem)
    (s : OrderFlowState) : Int :=
  (s.globalAdditionalMenuItems.map (fun additionalItem =>
    lookupUnitPrice allMenuItems additionalItem.menuItemId *
      additionalItem.quantity)).sum

theorem calculateTotalPrice_eq_sums (allMenuItems : List MenuItem)
    (s : OrderFlowState) :
    calculateTotalPrice allMenuItems s =
      specMaterializedInstanceSum allMenuItems s +
        specGlobalAdditionalSum allMenuItems s := by
  have hinner : ∀ item : SelectedDinnerItem,
      item.instances.enum.foldl
        (fun acc2 p => acc2 + instanceTotalContribution allMenuItems item p) 0 =
      (item.instances.enum.map (fun p =>
        if p.2.product.isSome then calculateProductPrice allMenuItems item p.1
        else 0)).sum := by
    intro item
    have h := foldl_add_eq_sum
      (fun acc2 p => acc2 + instanceTotalContribution allMenuItems item p)
      (fun p => instanceTotalContribution allMenuItems item p)
      (fun _ _ => rfl) item.instances.enum 0
    rw [h, zero_add]
    exact sum_map_congr (fun p hp => instanceTotalContribution_eq allMenuItems item p hp)
  have houter : s.selectedDinners.foldl (fun acc item =>
      acc + item.instances.enum.foldl
        (fun acc2 p => acc2 + instanceTotalContribution allMenuItems item p) 0) 0 =
      specMaterializedInstanceSum allMenuItems s := by
    have h := foldl_add_eq_sum
      (fun acc item => acc + item.instances.enum.foldl
        (fun acc2 p => acc2 + instanceTotalContribution allMenuItems item p) 0)
      (fun item => item.instances.enum.foldl
        (fun acc2 p => acc2 + instanceTotalContribution allMenuItems item p) 0)
      (fun _ _ => rfl) s.selectedDinners 0
    rw [h, zero_add, specMaterializedInstanceSum]
    exact sum_map_congr (fun item _ => hinner item)
  have hglob : ∀ init : Int,
      s.globalAdditionalMenuItems.foldl (fun acc additionalItem =>
        match allMenuItems.find? (fun m => m.id == additionalItem.menuItemId) with
        | some menuItem => acc + menuItem.unitPrice * additionalItem.quantity
        | none => acc) init =
      init + specGlobalAdditionalSum allMenuItems s := by
    intro init
    have h := foldl_add_eq_sum
      (fun acc additionalItem =>
        match allMenuItems.find? (fun m => m.id == additionalItem.menuItemId) with
        | some menuItem => acc + menuItem.unitPrice * additionalItem.quantity
        | none => acc)
      (fun additionalItem => lookupUnitPrice allMenuItems additionalItem.menuItemId *
        additionalItem.quantity)
      (fun acc additionalItem => by
        cases hfind : allMenuItems.find? (fun m => m.id == additionalItem.menuItemId) <;>
          simp [lookupUnitPrice, hfind])
      s.globalAdditionalMenuItems init
    rw [h, specGlobalAdditionalSum]
  simp only [calculateTotalPrice]
  rw [hglob, houter]

/-! ### Concrete demonstration values (used by counterexamples and witnesses) -/

/-- A dinner with base price 10000. -/
def demoDinner : Dinner :=
  { id := "dinner-1", dinnerName := "French dinner", basePrice := 10000 }

/-- A serving style with extra price 2000. -/
def demoStyle : ServingStyle :=
  { id := "style-1", styleName := "grand", extraPrice := 2000 }

/-- A second serving style. -/
def demoStyle2 : ServingStyle :=
  { id := "style-2", styleName := "deluxe", extraPrice := 5000 }

/-- A materialized product. -/
def demoProduct : Product := { id := "p1", totalPrice := 12000 }

/-- Catalog with one menu item of unit price 3000 (the claimed global add-on
example). -/
def breadCatalog : List MenuItem := [{ id := "m-bread", unitPrice := 3000 }]

/-- A state with zero selected dinners and one global additional item of
quantity 2 whose catalog unit price is 3000. -/
def zeroDinnerBreadState : OrderFlowState :=
  { initialState with globalAdditionalMenuItems :=
      [{ menuItemId := "m-bread", menuItemName := "Bread", quantity := 2 }] }

/-- Catalog with one menu item of unit price 500 (the claimed per-instance
price example). -/
def unitCatalog : List MenuItem := [{ id := "m-unit", unitPrice := 500 }]

/-- A customization raising the 500-unit-price item from default quantity 2 to
current quantity 4. -/
def demoCustomization : MenuItemCustomization :=
  { menuItemId := "m-unit", menuItemName := "unit", defaultQuantity := 2,
    currentQuantity := 4 }

/-- An instance carrying `demoCustomization`, with a style of extra price 2000
and a materialized product. -/
def demoInstance : DinnerInstance :=
  { id := "inst-1", style := some demoStyle, product := some demoProduct,
    menuCustomizations := [demoCustomization] }

/-- A selected dinner item holding `demoInstance`. -/
def demoSelectedItem : SelectedDinnerItem :=
  { id := "item-1", dinner := demoDinner, quantity := 1,
    instances := [demoInstance] }

/-- A fully styled and materialized instance with no customizations. -/
def plainInstance : DinnerInstance :=
  { id := "inst-1", style := some demoStyle, product := some demoProduct,
    menuCustomizations := [] }

/-- A dinner selected with quantity 2 but only one (fully styled and
materialized) instance. -/
def incompleteItem : SelectedDinnerItem :=
  { id := "item-1", dinner := demoDinner, quantity := 2,
    instances := [plainInstance] }

/-- A checkout-page state holding `incompleteItem` with an address chosen. -/
def incompleteState : OrderFlowState :=
  { initialState with
      selectedAddress := "221B Baker Street",
      selectedDinners := [incompleteItem] }

/-- A checkout environment with one registered payment method where every
additional-menu-product creation succeeds. -/
def demoEnv : CheckoutEnv :=
  { paymentMethodsCount := 1,
    createAdditionalMenuProduct := fun _ => Except.ok "ap-0" }

/-! ### Claim C1 -/

/-- C1 counterexample: the claimed equation fails for the
`getTotalPrice` of the store (one of the two cited total computations).  On the example state of the claim itself (zero selected dinners, one global additional item with unit
price 3000 and quantity 2) `getTotalPrice` returns 0, not 6000: it sums only
the backend prices of materialized products and excludes the global additional menu
items, which only `calculateTotalPrice` of the checkout page adds. -/
theorem getTotalPrice_excludes_globals_counterexample :
    getTotalPrice zeroDinnerBreadState = 0 ∧
    getTotalPrice zeroDinnerBreadState ≠ 6000 ∧
    calculateTotalPrice breadCatalog zeroDinnerBreadState = 6000 := by decide

/-- C1 (amended to `calculateTotalPrice` of the checkout page): the computed
order total equals the sum over all materialized instances of the per-instance
price plus the sum over global additional menu items of unitPrice × quantity;
in particular a state with zero dinners and one global additional item (unit
price 3000, quantity 2) totals 6000. -/
theorem calculateTotalPrice_spec (allMenuItems : List MenuItem)
    (s : OrderFlowState) :
    calculateTotalPrice allMenuItems s =
      specMaterializedInstanceSum allMenuItems s +
        specGlobalAdditionalSum allMenuItems s ∧
    calculateTotalPrice breadCatalog zeroDinnerBreadState = 6000 :=
  ⟨calculateTotalPrice_eq_sums allMenuItems s, by decide⟩

/-! ### Claim C5 -/

/-- C5: for a materialized instance (product and style present), the
per-instance price computed by `calculateProductPrice` equals dinner base
price + style extra price + Σ over its customizations of
(currentQuantity − defaultQuantity) × unit price, with no flooring at zero. -/
theorem calculateProductPrice_spec (allMenuItems : List MenuItem)
    (item : SelectedDinnerItem) (i : Nat) (inst : DinnerInstance)
    (hget : item.instances.get? i = some inst)
    (prod : Product) (hp : inst.product = some prod)
    (st : ServingStyle) (hs : inst.style = some st) :
    calculateProductPrice allMenuItems item i =
      item.dinner.basePrice + st.extraPrice +
        (inst.menuCustomizations.map (fun c =>
          (c.currentQuantity - c.defaultQuantity) *
            lookupUnitPrice allMenuItems c.menuItemId)).sum := by
  have hget2 : item.instances[i]? = some inst := by
    rw [← List.get?_eq_getElem?]
    exact hget
  simp [calculateProductPrice, hget2, hp, hs, customizationTotal_eq]

/-- C5 witness: base 10000, style extra 2000, one customization with default 2
and current 4 at unit price 500 gives instance price 13000. -/
theorem calculateProductPrice_spec_witness :
    calculateProductPrice unitCatalog demoSelectedItem 0 = 13000 ∧
    demoDinner.basePrice + demoStyle.extraPrice +
      (demoInstance.menuCustomizations.map (fun c =>
        (c.currentQuantity - c.defaultQuantity) *
          lookupUnitPrice unitCatalog c.menuItemId)).sum = 13000 := by
  have h := calculateProductPrice_spec unitCatalog demoSelectedItem 0
    demoInstance (by decide) demoProduct (by decide) demoStyle (by decide)
  constructor
  · rw [h]
    decide
  · decide

/-! ### Claim C3 -/

/-- A selected dinner item with no instances yet. -/
def emptyDemoItem : SelectedDinnerItem :=
  { id := "item-1", dinner := demoDinner, quantity := 1, instances := [] }

/-- A state holding only `emptyDemoItem`. -/
def styleDemoState : OrderFlowState :=
  { initialState with selectedDinners := [emptyDemoItem] }

/-- C3: `setInstanceStyle(d, i, style)` lazily grows the instances array of the matching item to length `max(old, i+1)` with empty placeholders, then sets
the style at index `i` and clears the product and customizations of that instance;
consequently after setInstanceStyle(d,0,S1), setInstanceProduct(d,0,P1),
setInstanceStyle(d,0,S2), instance 0 has style S2 and product null. -/
theorem setInstanceStyle_spec (gen : Nat → String) (s : OrderFlowState)
    (d : String) (i : Nat) (st : ServingStyle) (k : Nat)
    (item : SelectedDinnerItem) (hk : s.selectedDinners.get? k = some item)
    (hid : item.id = d) :
    (∃ item' inst,
      (setInstanceStyle gen s d i st).selectedDinners.get? k = some item' ∧
      item'.id = item.id ∧ item'.dinner = item.dinner ∧
      item'.quantity = item.quantity ∧
      item'.instances.length = max item.instances.length (i + 1) ∧
      item'.instances.get? i = some inst ∧
      inst.style = some st ∧ inst.product = none ∧
      inst.menuCustomizations = []) ∧
    (∀ (gen1 gen2 : Nat → String) (s1 s2 : ServingStyle) (p1 : Product),
      ∃ item' inst,
        (setInstanceStyle gen2
          (setInstanceProduct (setInstanceStyle gen1 s d 0 s1) d 0 p1)
          d 0 s2).selectedDinners.get? k = some item' ∧
        item'.instances.get? 0 = some inst ∧
        inst.style = some s2 ∧ inst.product = none) := by
  constructor
  · exact setInstanceStyle_instance_at gen s d i st k item hk hid
  · intro gen1 gen2 s1 s2 p1
    obtain ⟨item1, inst1, hk1, hid1, _, _, _, _, _, _, _⟩ :=
      setInstanceStyle_instance_at gen1 s d 0 s1 k item hk hid
    have hk2 := setInstanceProduct_get _ d 0 p1 k item1 hk1 (hid1.trans hid)
    obtain ⟨item3, inst3, hk3, _, _, _, _, hin3, hsty3, hprod3, _⟩ :=
      setInstanceStyle_instance_at gen2 _ d 0 s2 k _ hk2 (hid1.trans hid)
    exact ⟨item3, inst3, hk3, hin3, hsty3, hprod3⟩

/-- C3 witness: setting `demoStyle` on instance 0 of the instance-less item
creates the slot, with the style set and the product cleared. -/
theorem setInstanceStyle_spec_witness :
    ∃ item' inst,
      ((setInstanceStyle (fun _ => "g") styleDemoState "item-1" 0 demoStyle).selectedDinners).get? 0 = some item' ∧
      item'.instances.get? 0 = some inst ∧ inst.style = some demoStyle ∧
      inst.product = none := by
  obtain ⟨item', inst, h1, _, _, _, _, h6, h7, h8, _⟩ :=
    (setInstanceStyle_spec (fun _ => "g") styleDemoState "item-1" 0 demoStyle 0
      emptyDemoItem rfl rfl).1
  exact ⟨item', inst, h1, h6, h7, h8⟩

/-! ### Claim C10 -/

/-- A second materialized product. -/
def demoProduct2 : Product := { id := "p2", totalPrice := 999 }

/-- C10: `setInstanceProduct(d, i, p)` writes only the product field of
instance slot (d, i): items with other ids are returned unchanged, the
matching item keeps identity fields and all other instance slots, the written
slot keeps its style and customizations, and when no instance exists at index
`i` the call is a no-op leaving the state unchanged. -/
theorem setInstanceProduct_frame (s : OrderFlowState) (d : String) (i : Nat)
    (p : Product) :
    (∀ k item, s.selectedDinners.get? k = some item → item.id ≠ d →
      (setInstanceProduct s d i p).selectedDinners.get? k = some item) ∧
    (∀ k item, s.selectedDinners.get? k = some item → item.id = d →
      ∃ item',
        (setInstanceProduct s d i p).selectedDinners.get? k = some item' ∧
        item'.id = item.id ∧ item'.dinner = item.dinner ∧
        item'.quantity = item.quantity ∧
        item'.instances.length = item.instances.length ∧
        (∀ j, j ≠ i → item'.instances.get? j = item.instances.get? j) ∧
        (∀ inst, item.instances.get? i = some inst →
          item'.instances.get? i = some { inst with product := some p })) ∧
    ((∀ item ∈ s.selectedDinners, item.id = d → item.instances.length ≤ i) →
      setInstanceProduct s d i p = s) := by
  refine ⟨?_, ?_, ?_⟩
  · intro k item hk hne
    show (s.selectedDinners.map _).get? k = _
    rw [List.get?_eq_getElem?, List.getElem?_map, ← List.get?_eq_getElem?, hk,
      Option.map_some']
    simp [hne]
  · intro k item hk hid
    refine ⟨_, setInstanceProduct_get s d i p k item hk hid, rfl, rfl, rfl,
      ?_, ?_, ?_⟩
    · exact listModify_length _ _ _
    · intro j hj
      exact listModify_get_ne _ _ _ _ hj
    · intro inst hinst
      rw [listModify_get_self, hinst, Option.map_some']
  · intro h
    have hmap : (setInstanceProduct s d i p).selectedDinners = s.selectedDinners := by
      show s.selectedDinners.map _ = s.selectedDinners
      apply map_eq_self_of
      intro a ha
      by_cases hcase : a.id = d
      · rw [if_pos (by simp [hcase]),
          listModify_of_length_le _ _ _ (h a ha hcase)]
      · rw [if_neg (by simp [hcase])]
    have hexpand : setInstanceProduct s d i p =
        { s with selectedDinners := (setInstanceProduct s d i p).selectedDinners } := rfl
    rw [hexpand, hmap]

/-- C10 witness: writing a product on slot 0 of the incomplete state keeps the
style of the slot, and a write at out-of-bounds index 3 is a no-op. -/
theorem setInstanceProduct_frame_witness :
    (∃ item',
      ((setInstanceProduct incompleteState "item-1" 0 demoProduct2).selectedDinners).get? 0 = some item' ∧
      item'.instances.get? 0 =
        some { plainInstance with product := some demoProduct2 }) ∧
    setInstanceProduct styleDemoState "item-1" 3 demoProduct = styleDemoState := by
  constructor
  · obtain ⟨item', h1, _, _, _, _, _, hwrite⟩ :=
      (setInstanceProduct_frame incompleteState "item-1" 0 demoProduct2).2.1 0
        incompleteItem rfl rfl
    exact ⟨item', h1, hwrite plainInstance rfl⟩
  · exact (setInstanceProduct_frame styleDemoState "item-1" 3 demoProduct).2.2
      (by decide)

/-! ### Claim C4 -/

theorem updateDinnerQuantity_pos (s : OrderFlowState) (d : String) (q : Int)
    (h : 0 < q) :
    (updateDinnerQuantity s d q).selectedDinners =
      s.selectedDinners.map (fun item =>
        if item.id == d then { item with quantity := q, instances := [] }
        else item) := by
  unfold updateDinnerQuantity
  rw [if_neg (by omega)]

/-- C4: `updateDinnerQuantity(id, q)` with q ≤ 0 behaves exactly as
`removeDinner(id)`; with q > 0 every matching item ends with quantity q and an
empty instances list. -/
theorem updateDinnerQuantity_spec (s : OrderFlowState) (d : String) (q : Int) :
    (q ≤ 0 → updateDinnerQuantity s d q = removeDinner s d) ∧
    (0 < q → ∀ item' ∈ (updateDinnerQuantity s d q).selectedDinners,
      item'.id = d → item'.quantity = q ∧ item'.instances = []) := by
  constructor
  · intro h
    unfold updateDinnerQuantity
    rw [if_pos h]
  · intro h item' hmem hid
    rw [updateDinnerQuantity_pos s d q h] at hmem
    obtain ⟨a, ha, hfa⟩ := List.mem_map.mp hmem
    by_cases hcase : a.id = d
    · rw [if_pos (by simp [hcase])] at hfa
      rw [← hfa]
      exact ⟨rfl, rfl⟩
    · rw [if_neg (by simp [hcase])] at hfa
      subst hfa
      exact absurd hid hcase

/-- C4 witness: on the concrete incomplete state, quantity 0 removes the item
and quantity 5 clears the instances of the matching item. -/
theorem updateDinnerQuantity_spec_witness :
    updateDinnerQuantity incompleteState "item-1" 0 =
      removeDinner incompleteState "item-1" ∧
    ∀ item' ∈ (updateDinnerQuantity incompleteState "item-1" 5).selectedDinners,
      item'.id = "item-1" → item'.quantity = 5 ∧ item'.instances = [] :=
  ⟨(updateDinnerQuantity_spec incompleteState "item-1" 0).1 (by decide),
   (updateDinnerQuantity_spec incompleteState "item-1" 5).2 (by decide)⟩

/-! ### Claim C7 -/

theorem addGlobal_noop_of_any (t : OrderFlowState) (m n : String)
    (h : t.globalAdditionalMenuItems.any (fun e => e.menuItemId == m) = true) :
    addGlobalAdditionalMenuItem t m n = t := by
  unfold addGlobalAdditionalMenuItem
  rw [if_pos h]

theorem addGlobal_append_of_not_any (t : OrderFlowState) (m n : String)
    (h : ¬ t.globalAdditionalMenuItems.any (fun e => e.menuItemId == m) = true) :
    (addGlobalAdditionalMenuItem t m n).globalAdditionalMenuItems =
      t.globalAdditionalMenuItems ++
        [{ menuItemId := m, menuItemName := n, quantity := 1 }] := by
  unfold addGlobalAdditionalMenuItem
  rw [if_neg h]

theorem addGlobal_noop_of_present (s : OrderFlowState) (m n : String)
    (h : ∃ e ∈ s.globalAdditionalMenuItems, e.menuItemId = m) :
    addGlobalAdditionalMenuItem s m n = s := by
  refine addGlobal_noop_of_any s m n ?_
  obtain ⟨e, he, hm⟩ := h
  exact List.any_eq_true.mpr ⟨e, he, by simp [hm]⟩

theorem addGlobal_twice_countP (s : OrderFlowState) (m n1 n2 : String)
    (hle : s.globalAdditionalMenuItems.countP (fun e => e.menuItemId == m) ≤ 1) :
    (((addGlobalAdditionalMenuItem (addGlobalAdditionalMenuItem s m n1) m n2).globalAdditionalMenuItems).countP (fun e => e.menuItemId == m)) = 1 := by
  by_cases hpres : s.globalAdditionalMenuItems.any
      (fun e => e.menuItemId == m) = true
  · rw [addGlobal_noop_of_any s m n1 hpres, addGlobal_noop_of_any s m n2 hpres]
    obtain ⟨e, he, hm⟩ := List.any_eq_true.mp hpres
    have hpos : 0 < s.globalAdditionalMenuItems.countP
        (fun e => e.menuItemId == m) :=
      List.countP_pos_iff.mpr ⟨e, he, hm⟩
    omega
  · have hadd1 := addGlobal_append_of_not_any s m n1 hpres
    have hzero : s.globalAdditionalMenuItems.countP
        (fun e => e.menuItemId == m) = 0 := by
      rw [List.countP_eq_zero]
      intro a ha hpa
      exact hpres (List.any_eq_true.mpr ⟨a, ha, hpa⟩)
    have hpres2 : (addGlobalAdditionalMenuItem s m n1).globalAdditionalMenuItems.any
        (fun e => e.menuItemId == m) = true := by
      rw [hadd1]
      exact List.any_eq_true.mpr
        ⟨{ menuItemId := m, menuItemName := n1, quantity := 1 }, by simp, by simp⟩
    rw [addGlobal_noop_of_any _ m n2 hpres2, hadd1, List.countP_append, hzero]
    simp

/-- C7: re-adding an already-present menu item id to the global additional
list is a no-op, so two `addGlobalAdditionalMenuItem` calls with the same id
leave exactly one entry for that id (starting from any state with at most one
such entry). -/
theorem addGlobalAdditionalMenuItem_unique (s : OrderFlowState)
    (m n1 n2 : String) :
    ((∃ e ∈ s.globalAdditionalMenuItems, e.menuItemId = m) →
      addGlobalAdditionalMenuItem s m n1 = s) ∧
    (s.globalAdditionalMenuItems.countP (fun e => e.menuItemId == m) ≤ 1 →
      (((addGlobalAdditionalMenuItem (addGlobalAdditionalMenuItem s m n1) m n2).globalAdditionalMenuItems).countP (fun e => e.menuItemId == m)) = 1) :=
  ⟨addGlobal_noop_of_present s m n1, addGlobal_twice_countP s m n1 n2⟩

/-- C7 witness: re-adding "m-bread" to the state already holding it is a
no-op, and adding "m-x" twice to the empty state leaves exactly one entry. -/
theorem addGlobalAdditionalMenuItem_unique_witness :
    addGlobalAdditionalMenuItem zeroDinnerBreadState "m-bread" "Bread" =
      zeroDinnerBreadState ∧
    (((addGlobalAdditionalMenuItem (addGlobalAdditionalMenuItem initialState "m-x" "Bread") "m-x" "Bread").globalAdditionalMenuItems).countP (fun e => e.menuItemId == "m-x")) = 1 :=
  ⟨(addGlobalAdditionalMenuItem_unique zeroDinnerBreadState "m-bread" "Bread"
      "Bread").1 (by decide),
   (addGlobalAdditionalMenuItem_unique initialState "m-x" "Bread" "Bread").2
      (by decide)⟩

/-! ### Claim C8 -/

/-- C8 counterexample: `addDinner` performs no quantity validation — called
with quantity 0 on the empty state it appends a SelectedDinnerItem with
quantity 0 instead of returning the state unchanged. -/
theorem addDinner_nonpositive_counterexample :
    addDinner "item-1" initialState demoDinner 0 ≠ initialState ∧
    (addDinner "item-1" initialState demoDinner 0).selectedDinners.length = 1 := by
  decide

theorem bumpFirstDinner_append (did : String) (q : Int)
    (pre : List SelectedDinnerItem) (item : SelectedDinnerItem)
    (post : List SelectedDinnerItem)
    (hpre : ∀ a ∈ pre, a.dinner.id ≠ did) (hit : item.dinner.id = did) :
    bumpFirstDinner did q (pre ++ item :: post) =
      pre ++ { item with quantity := item.quantity + q, instances := [] } :: post := by
  induction pre with
  | nil => simp [bumpFirstDinner, hit]
  | cons a rest ih =>
    have ha : a.dinner.id ≠ did := hpre a (by simp)
    simp only [List.cons_append, bumpFirstDinner, List.append_eq]
    rw [if_neg (by simp [ha]), ih (fun b hb => hpre b (by simp [hb]))]

/-- C8 (amended): `addDinner` applies regardless of the sign of the quantity:
when no item holds the dinner it appends a new SelectedDinnerItem carrying
exactly the given quantity (even ≤ 0), and when one does it adds the quantity
to the first matching item and clears its instances. -/
theorem addDinner_no_validation (newId : String) (s : OrderFlowState)
    (dinner : Dinner) (q : Int) :
    ((∀ item ∈ s.selectedDinners, item.dinner.id ≠ dinner.id) →
      addDinner newId s dinner q = { s with selectedDinners :=
        s.selectedDinners ++
          [{ id := newId, dinner := dinner, quantity := q, instances := [] }] }) ∧
    (∀ pre item post, s.selectedDinners = pre ++ item :: post →
      (∀ a ∈ pre, a.dinner.id ≠ dinner.id) → item.dinner.id = dinner.id →
      addDinner newId s dinner q = { s with selectedDinners :=
        pre ++ { item with quantity := item.quantity + q, instances := [] }
          :: post }) := by
  constructor
  · intro h
    unfold addDinner
    rw [if_neg]
    intro hany
    obtain ⟨a, ha, hpa⟩ := List.any_eq_true.mp hany
    exact h a ha (by simpa using hpa)
  · intro pre item post hsplit hpre hit
    have hcond : s.selectedDinners.any
        (fun item => item.dinner.id == dinner.id) = true := by
      rw [hsplit]
      exact List.any_eq_true.mpr ⟨item, by simp, by simp [hit]⟩
    unfold addDinner
    rw [if_pos hcond, hsplit,
      bumpFirstDinner_append dinner.id q pre item post hpre hit]

/-- C8 witness: adding `demoDinner` with quantity −3 to the empty state
appends an item with quantity −3 (the call is not rejected). -/
theorem addDinner_no_validation_witness :
    addDinner "item-1" initialState demoDinner (-3) =
      { initialState with selectedDinners := initialState.selectedDinners ++
          [{ id := "item-1", dinner := demoDinner, quantity := -3,
             instances := [] }] } :=
  (addDinner_no_validation "item-1" initialState demoDinner (-3)).1 (by decide)

/-! ### Claim C2 -/

/-- C2 counterexample: on a state with a dinner of quantity 2 but only one
fully styled and materialized instance, the checkout handler does not block:
its guard inspects only existing instances, never `instances.length` against
`quantity`, so the remote sequence proceeds all the way to cart creation. -/
theorem handleCheckout_incomplete_proceeds_counterexample :
    incompleteItem.quantity = 2 ∧
    incompleteItem.instances.length = 1 ∧
    (∀ inst ∈ incompleteItem.instances,
      inst.style.isSome = true ∧ inst.product.isSome = true) ∧
    (handleCheckout demoEnv incompleteState).1 =
      CheckoutOutcome.proceedToCart [{ productId := "p1", quantity := 1 }] [] := by
  decide

/-- C2 (amended): the completeness precondition (`instances.length ===
quantity` and every instance styled and materialized) is enforced by
handleNext of StyleStep, which refuses to advance the flow while it fails;
`handleCheckout` itself checks only that every existing instance has a product
and that a payment method is registered, and with those satisfied it never
stops at either of its two blocking guards. -/
theorem checkout_completeness_gate (s : OrderFlowState) (env : CheckoutEnv) :
    (allStylesSelected s = false → styleStepHandleNext s = s) ∧
    (allProductsCreated s = true → env.paymentMethodsCount ≠ 0 →
      (handleCheckout env s).1 ≠ CheckoutOutcome.blockedMissingProducts ∧
      (handleCheckout env s).1 ≠ CheckoutOutcome.blockedNoPaymentMethod) := by
  constructor
  · intro h
    unfold styleStepHandleNext
    rw [if_pos (by rw [h]; rfl)]
  · intro hprod hpay
    obtain ⟨n, hn⟩ : ∃ n, env.paymentMethodsCount = n + 1 := by
      cases hc : env.paymentMethodsCount with
      | zero => exact absurd hc hpay
      | succ n => exact ⟨n, rfl⟩
    cases hmat : materializeAdditional env.createAdditionalMenuProduct
        s.globalAdditionalMenuItems with
    | error pair =>
      obtain ⟨nm, created⟩ := pair
      constructor <;> simp [handleCheckout, hprod, hn, hmat]
    | ok pids =>
      refine ⟨?_, ?_⟩ <;>
        (simp [handleCheckout, hprod, hn, hmat]; try (split <;> simp))

/-- C2 witness: the incomplete state fails the StyleStep completeness check, so
handleNext does not advance; handleCheckout on the same state is stopped by
neither blocking guard. -/
theorem checkout_completeness_gate_witness :
    styleStepHandleNext incompleteState = incompleteState ∧
    (handleCheckout demoEnv incompleteState).1 ≠
      CheckoutOutcome.blockedMissingProducts :=
  ⟨(checkout_completeness_gate incompleteState demoEnv).1 (by decide),
   ((checkout_completeness_gate incompleteState demoEnv).2 (by decide)
      (by decide)).1⟩

/-! ### Claim C6 -/

theorem materializeAdditional_append_error
    (f : AdditionalMenuItem → Except String String)
    (pre : List AdditionalMenuItem) (failItem : AdditionalMenuItem)
    (post : List AdditionalMenuItem) (e : String)
    (hpre : ∀ a ∈ pre, (f a).isOk = true)
    (hfail : f failItem = Except.error e) :
    materializeAdditional f (pre ++ failItem :: post) =
      Except.error (failItem.menuItemName,
        pre.filterMap (fun a => (f a).toOption)) := by
  induction pre with
  | nil => simp [materializeAdditional, hfail]
  | cons a rest ih =>
    have ha := hpre a (by simp)
    obtain ⟨pid, hpid⟩ : ∃ pid, f a = Except.ok pid := by
      cases hfa : f a with
      | error err =>
        rw [hfa] at ha
        simp [Except.isOk, Except.toBool] at ha
      | ok v => exact ⟨v, rfl⟩
    have ih2 := ih (fun b hb => hpre b (by simp [hb]))
    simp [materializeAdditional, hpid, ih2, Except.toOption]

/-- C6: when some global additional menu item fails to materialize (all
earlier ones in the batch succeeding), the whole checkout aborts before cart
creation with an outcome naming the failed add-on and carrying the product ids
already created in the batch (they are not rolled back), and the store state
is returned unchanged (not reset), so the user may retry. -/
theorem handleCheckout_additional_failure (env : CheckoutEnv)
    (s : OrderFlowState) (pre : List AdditionalMenuItem)
    (failItem : AdditionalMenuItem) (post : List AdditionalMenuItem)
    (e : String)
    (hsplit : s.globalAdditionalMenuItems = pre ++ failItem :: post)
    (hpre : ∀ a ∈ pre, (env.createAdditionalMenuProduct a).isOk = true)
    (hfail : env.createAdditionalMenuProduct failItem = Except.error e)
    (hprod : allProductsCreated s = true)
    (hpay : env.paymentMethodsCount ≠ 0) :
    handleCheckout env s =
      (CheckoutOutcome.abortedAdditionalFailure failItem.menuItemName
        (pre.filterMap (fun a => (env.createAdditionalMenuProduct a).toOption)),
       s) := by
  obtain ⟨n, hn⟩ : ∃ n, env.paymentMethodsCount = n + 1 := by
    cases hc : env.paymentMethodsCount with
    | zero => exact absurd hc hpay
    | succ n => exact ⟨n, rfl⟩
  have hmat := materializeAdditional_append_error env.createAdditionalMenuProduct
    pre failItem post e hpre hfail
  rw [← hsplit] at hmat
  simp [handleCheckout, hprod, hn, hmat]

/-- An additional menu item whose materialization succeeds in
`failingEnv`. -/
def okAddItem : AdditionalMenuItem :=
  { menuItemId := "m-ok", menuItemName := "Bread", quantity := 1 }

/-- An additional menu item whose materialization fails in `failingEnv`. -/
def badAddItem : AdditionalMenuItem :=
  { menuItemId := "m-bad", menuItemName := "Wine", quantity := 2 }

/-- A checkout environment where only menu item id "m-ok" materializes. -/
def failingEnv : CheckoutEnv :=
  { paymentMethodsCount := 1,
    createAdditionalMenuProduct := fun a =>
      if a.menuItemId == "m-ok" then Except.ok "ap-1"
      else Except.error "out of stock" }

/-- A state with no dinners and two global add-ons, the second of which fails
to materialize in `failingEnv`. -/
def twoAddonState : OrderFlowState :=
  { initialState with globalAdditionalMenuItems := [okAddItem, badAddItem] }

/-- C6 witness: with the first add-on succeeding (product "ap-1") and the
second failing, checkout aborts naming "Wine", keeps the created id, and
returns the state unchanged. -/
theorem handleCheckout_additional_failure_witness :
    handleCheckout failingEnv twoAddonState =
      (CheckoutOutcome.abortedAdditionalFailure "Wine" ["ap-1"],
       twoAddonState) := by
  have h := handleCheckout_additional_failure failingEnv twoAddonState
    [okAddItem] badAddItem [] "out of stock" rfl (by decide) rfl (by decide)
    (by decide)
  exact h

/-! ### Claim C9 -/

/-- A populated drawer-local state. -/
def demoVoiceItem : VoiceOrderItem :=
  { dinnerId := "dinner-1", dinnerName := "French dinner",
    servingStyleId := some "style-1", servingStyleName := some "grand",
    productId := some "p1", quantity := 1, basePrice := 10000,
    unitPrice := 12000, totalPrice := 12000 }

/-- A drawer-local state holding a non-empty order snapshot, a total and an
address. -/
def demoChatState : ChatLocalState :=
  { currentOrder := [demoVoiceItem], totalPrice := 12000,
    selectedAddress := some "221B Baker Street",
    nextState := some "CONFIRMING", showConfirmModal := false,
    drawerOpen := true }

/-- A dialogue response carrying no order number. -/
def demoChatResponse : VoiceChatResponse :=
  { totalPrice := 12000, orderNumber := none }

/-- C9 counterexample: the show-cancel-confirmation directive leaves the
local order state of the adapter exactly as it was — nothing is cleared (its switch
case is an explicit no-op in the source). -/
theorem handleUiAction_cancel_noop_counterexample :
    handleUiAction .showCancelConfirm demoChatResponse demoChatState =
      demoChatState ∧
    demoChatState.currentOrder ≠ [] ∧
    demoChatState.totalPrice ≠ 0 ∧
    demoChatState.selectedAddress ≠ none := by
  decide

/-- C9 (amended): show-cancel-confirmation is a no-op on the local drawer
state (left unimplemented in the source); it is the order-completed directive
that clears the current order snapshot, the total price and the selected
address. -/
theorem handleUiAction_directives_spec (data : VoiceChatResponse)
    (st : ChatLocalState) :
    handleUiAction .showCancelConfirm data st = st ∧
    (handleUiAction .orderCompleted data st).currentOrder = [] ∧
    (handleUiAction .orderCompleted data st).totalPrice = 0 ∧
    (handleUiAction .orderCompleted data st).selectedAddress = none :=
  ⟨rfl, rfl, rfl, rfl⟩

end MrDaebak
